import Mathlib

/-!
Verification of the real-time alert synchronization core of the Smart-city
frontend.  The definitions below are a shallow embedding of the Redux slice
`frontend/src/store/alertsSlice.ts`, of the socket event handlers in
`useWebSocket`, and of the REST client `alertsAPI`.  Theorems settle the
spec claims about invariants of the store, the alert state machine, the
optimistic-update protocol and the reconnection behaviour.
-/

namespace SmartCity

/-- Severity levels of an alert (`'low' | 'medium' | 'high' | 'critical'`). -/
inductive Severity
  | low
  | medium
  | high
  | critical
  deriving DecidableEq, Repr

/-- Lifecycle status of an alert (`'active' | 'acknowledged' | 'resolved'`). -/
inductive Status
  | active
  | acknowledged
  | resolved
  deriving DecidableEq, Repr

/-- The `Alert` record of `alertsSlice.ts`.  The `acknowledged_by` /
`resolved_by` fields are not in the TypeScript interface but are attached at
runtime by the object spreads in the socket handlers, so they are part of the
runtime record. -/
structure Alert where
  id : String
  alert_type : String
  severity : Severity
  message : String
  module : String
  status : Status
  created_at : String
  acknowledged_at : Option String := none
  resolved_at : Option String := none
  acknowledged_by : Option String := none
  resolved_by : Option String := none
  location : Option String := none
  affected_systems : Option (List String) := none
  recommended_actions : Option (List String) := none
  deriving DecidableEq, Repr

/-- The `filters` sub-state of the slice. -/
structure Filters where
  status : String
  severity : String
  module : String
  deriving DecidableEq, Repr

/-- The `AlertsState` of the slice. -/
structure AlertsState where
  alerts : List Alert
  activeAlerts : List Alert
  isLoading : Bool
  error : Option String
  filters : Filters
  deriving DecidableEq, Repr

/-- `initialState` of the slice. -/
def initialState : AlertsState :=
  { alerts := []
    activeAlerts := []
    isLoading := false
    error := none
    filters := { status := "active", severity := "", module := "" } }

/-- The partial-alert payload dispatched to the `updateAlert` reducer.  All
call sites (`alert_acknowledged`, `alert_resolved`, `alerts_bulk_acknowledged`
handlers in `useWebSocket`) pass exactly these fields; `none` models an absent
field. -/
structure UpdatePayload where
  id : String
  status : Option Status := none
  acknowledged_at : Option String := none
  acknowledged_by : Option String := none
  resolved_at : Option String := none
  resolved_by : Option String := none
  deriving DecidableEq, Repr

/-- A field of a JS object spread: a field present in the payload wins,
otherwise the old value is kept. -/
def overrideField (p : Option α) (old : Option α) : Option α :=
  match p with
  | some v => some v
  | none => old

/-- The object spread `\x7b ...alert, ...payload \x7d` used by the
`updateAlert` reducer: payload fields override the record's fields. -/
def mergePatch (a : Alert) (p : UpdatePayload) : Alert :=
  { a with
    id := p.id
    status := p.status.getD a.status
    acknowledged_at := overrideField p.acknowledged_at a.acknowledged_at
    acknowledged_by := overrideField p.acknowledged_by a.acknowledged_by
    resolved_at := overrideField p.resolved_at a.resolved_at
    resolved_by := overrideField p.resolved_by a.resolved_by }

/-- Replace the first record whose `id` equals `i` by `f` of that record,
leaving everything else in place.  This models the
`findIndex` on `id` followed by an assignment at the found index used by the
`updateAlert` reducer and by the thunk-fulfilled reducers (the index `-1` /
`find` returning `undefined` case is the no-match fall-through). -/
def patchFirst (i : String) (f : Alert → Alert) : List Alert → List Alert
  | [] => []
  | a :: rest => if a.id = i then f a :: rest else a :: patchFirst i f rest

/-- The `activeAlerts` branch of the `updateAlert` reducer: at the first
record whose `id` matches, merge the payload in place when
`payload.status === 'active'`, otherwise `splice` the record out; no match
leaves the list unchanged. -/
def patchActive (p : UpdatePayload) : List Alert → List Alert
  | [] => []
  | a :: rest =>
    if a.id = p.id then
      if p.status = some Status.active then mergePatch a p :: rest else rest
    else a :: patchActive p rest

/-- The predicate `alert.status === 'active'` used by the slice's filters. -/
def isActive (a : Alert) : Bool :=
  decide (a.status = Status.active)

/-- The predicate `a.id !== alertId` used by the thunk-fulfilled reducers to
drop an id from `activeAlerts`. -/
def idNe (alertId : String) (a : Alert) : Bool :=
  decide (a.id ≠ alertId)

/-- Reducer `addAlert`: `unshift` the payload onto `alerts`, and onto
`activeAlerts` when its status is `'active'`. -/
def addAlert (a : Alert) (s : AlertsState) : AlertsState :=
  { s with
    alerts := a :: s.alerts
    activeAlerts :=
      if a.status = Status.active then a :: s.activeAlerts else s.activeAlerts }

/-- Reducer `updateAlert`: merge the payload into the first `alerts` record
with a matching `id`; in `activeAlerts`, merge in place when the payload
status is `'active'`, else splice the matching record out. -/
def updateAlert (p : UpdatePayload) (s : AlertsState) : AlertsState :=
  { s with
    alerts := patchFirst p.id (fun a => mergePatch a p) s.alerts
    activeAlerts := patchActive p s.activeAlerts }

/-- Extra reducer `fetchAlerts.fulfilled`: replace `alerts` with the snapshot
payload and recompute `activeAlerts` as its `'active'` filter. -/
def fetchFulfilled (payload : List Alert) (s : AlertsState) : AlertsState :=
  { s with
    isLoading := false
    alerts := payload
    activeAlerts := payload.filter isActive }

/-- Extra reducer `acknowledgeAlert.fulfilled`: set the found alert's status
to `'acknowledged'` and stamp `acknowledged_at` (with `now` standing for
`new Date().toISOString()`), then drop every record with this `id` from
`activeAlerts`. -/
def acknowledgeFulfilled (alertId : String) (now : String) (s : AlertsState) :
    AlertsState :=
  { s with
    alerts :=
      patchFirst alertId
        (fun a => { a with status := Status.acknowledged, acknowledged_at := some now })
        s.alerts
    activeAlerts := s.activeAlerts.filter (idNe alertId) }

/-- Extra reducer `resolveAlert.fulfilled`: set the found alert's status to
`'resolved'` and stamp `resolved_at`, then drop every record with this `id`
from `activeAlerts`. -/
def resolveFulfilled (alertId : String) (now : String) (s : AlertsState) :
    AlertsState :=
  { s with
    alerts :=
      patchFirst alertId
        (fun a => { a with status := Status.resolved, resolved_at := some now })
        s.alerts
    activeAlerts := s.activeAlerts.filter (idNe alertId) }

/-- The `acknowledgeAlert` async thunk registers no `pending` case in
`extraReducers`, so the store is unchanged while the REST call is in
flight. -/
def acknowledgePending (s : AlertsState) : AlertsState := s

/-- The `acknowledgeAlert` async thunk registers no `rejected` case in
`extraReducers`, so a failed REST call leaves the store unchanged. -/
def acknowledgeRejected (s : AlertsState) : AlertsState := s

/-- The `updateAlert` payload dispatched by the `alert_acknowledged` socket
handler in `useWebSocket`. -/
def alertAcknowledgedEvent (alert_id acknowledged_at acknowledged_by : String) :
    UpdatePayload :=
  { id := alert_id
    status := some Status.acknowledged
    acknowledged_at := some acknowledged_at
    acknowledged_by := some acknowledged_by }

/-- The `updateAlert` payload dispatched by the `alert_resolved` socket
handler in `useWebSocket`. -/
def alertResolvedEvent (alert_id resolved_at resolved_by : String) :
    UpdatePayload :=
  { id := alert_id
    status := some Status.resolved
    resolved_at := some resolved_at
    resolved_by := some resolved_by }

/-- The `alerts_bulk_acknowledged` socket handler: a `forEach` over
`alert_ids` dispatching one `updateAlert` per id (with `now` standing for the
`new Date().toISOString()` stamp and `acknowledged_by` taken from the event
payload). -/
def alertsBulkAcknowledged (alert_ids : List String)
    (now acknowledged_by : String) (s : AlertsState) : AlertsState :=
  alert_ids.foldl
    (fun st aid =>
      updateAlert
        { id := aid
          status := some Status.acknowledged
          acknowledged_at := some now
          acknowledged_by := some acknowledged_by } st)
    s

/-- The successive store states produced by the `forEach` of the bulk
handler: each `dispatch` completes as its own store transaction, notifying
subscribers, so each of these states is observable. -/
def bulkStates (alert_ids : List String) (now acknowledged_by : String)
    (s : AlertsState) : List AlertsState :=
  match alert_ids with
  | [] => []
  | aid :: rest =>
    let s' :=
      updateAlert
        { id := aid
          status := some Status.acknowledged
          acknowledged_at := some now
          acknowledged_by := some acknowledged_by } s
    s' :: bulkStates rest now acknowledged_by s'

/-- A REST request issued by the `alertsAPI` client. -/
inductive RestRequest
  | get (path : String)
  | post (path : String)
  | put (path : String)
  deriving DecidableEq, Repr

/-- `alertsAPI.acknowledgeAlert`: `api.put` on `/alerts/id/acknowledge`. -/
def acknowledgeAlertRequest (alertId : String) : RestRequest :=
  RestRequest.put ("/alerts/" ++ alertId ++ "/acknowledge")

/-- The REST requests issued by the body of the `acknowledgeAlert` thunk:
it awaits `alertsAPI.acknowledgeAlert(alertId)` unconditionally, with no
check of the store, so the request list does not depend on the state. -/
def acknowledgeThunkRequests (alertId : String) (s : AlertsState) :
    List RestRequest :=
  [acknowledgeAlertRequest alertId]

/-- The store operations named by the claims, as one action type. -/
inductive Op
  | addAlert (a : Alert)
  | updateAlert (p : UpdatePayload)
  | fetchFulfilled (payload : List Alert)
  | acknowledgeFulfilled (alertId now : String)
  | resolveFulfilled (alertId now : String)
  deriving DecidableEq, Repr

/-- Dispatch one operation to its reducer. -/
def applyOp (o : Op) (s : AlertsState) : AlertsState :=
  match o with
  | Op.addAlert a => addAlert a s
  | Op.updateAlert p => updateAlert p s
  | Op.fetchFulfilled payload => fetchFulfilled payload s
  | Op.acknowledgeFulfilled i t => acknowledgeFulfilled i t s
  | Op.resolveFulfilled i t => resolveFulfilled i t s

/-- Run a sequence of operations left to right. -/
def run (ops : List Op) (s : AlertsState) : AlertsState :=
  match ops with
  | [] => s
  | o :: rest => run rest (applyOp o s)

/-- The cached active view coincides with the active filter of the stored
alerts. -/
def activeInv (s : AlertsState) : Prop :=
  s.activeAlerts = s.alerts.filter isActive

instance : DecidablePred activeInv := fun s => by
  unfold activeInv
  infer_instance

/-- The stored alert ids are pairwise distinct. -/
def idsNodup (s : AlertsState) : Prop :=
  (s.alerts.map Alert.id).Nodup

instance : DecidablePred idsNodup := fun s => by
  unfold idsNodup
  infer_instance

/-- Well-formed store: the active view matches and ids are unique. -/
def Good (s : AlertsState) : Prop :=
  activeInv s ∧ idsNodup s

/-- Side condition under which an operation preserves `Good`: a pushed alert
carries a fresh id, an update payload carries a non-`'active'` status (as all
socket-handler payloads do), and a snapshot has pairwise-distinct ids. -/
def opOK (o : Op) (s : AlertsState) : Bool :=
  match o with
  | Op.addAlert a => decide (a.id ∉ s.alerts.map Alert.id)
  | Op.updateAlert p =>
    decide (p.status = some Status.acknowledged) ||
      decide (p.status = some Status.resolved)
  | Op.fetchFulfilled payload => decide ((payload.map Alert.id).Nodup)
  | Op.acknowledgeFulfilled _ _ => true
  | Op.resolveFulfilled _ _ => true

/-- All operations of a run satisfy their side condition at the state where
they execute. -/
def opsOK (ops : List Op) (s : AlertsState) : Bool :=
  match ops with
  | [] => true
  | o :: rest => opOK o s && opsOK rest (applyOp o s)

/-- Events exposed by the socket connection that `useWebSocket` listens
on (the alert payload carriers are irrelevant to the connection claims and
are carried opaquely). -/
inductive SocketEvent
  | connect
  | disconnect
  | connectError
  | newAlert (a : Alert)
  | alertAcknowledged (alert_id acknowledged_at acknowledged_by : String)
  | alertResolved (alert_id resolved_at resolved_by : String)
  | alertsBulkAcknowledged (alert_ids : List String) (acknowledged_by : String)
  deriving DecidableEq, Repr

/-- Commands the hook emits on the channel. -/
inductive OutMessage
  | joinRoom (room : String)
  | subscribeAlerts (severity_levels : List String) (modules : List String)
  deriving DecidableEq, Repr

/-- The severity levels hard-coded in the `subscribe_alerts` emission of the
`connect` handler. -/
def subscriptionSeverityLevels : List String :=
  ["high", "critical"]

/-- The modules hard-coded in the `subscribe_alerts` emission of the
`connect` handler. -/
def subscriptionModules : List String :=
  ["traffic", "environment", "waste", "energy", "emergency"]

/-- The messages `useWebSocket` emits in response to each socket event: the
`connect` handler joins the two rooms and subscribes to alerts; no other
handler emits. -/
def connectionEmissions (e : SocketEvent) : List OutMessage :=
  match e with
  | SocketEvent.connect =>
    [OutMessage.joinRoom "alerts",
     OutMessage.joinRoom "dashboard",
     OutMessage.subscribeAlerts subscriptionSeverityLevels subscriptionModules]
  | _ => []

/-- Sample alert used by concrete witnesses. -/
def sampleActive : Alert :=
  { id := "A1"
    alert_type := "congestion"
    severity := Severity.high
    message := "Heavy congestion on Main St"
    module := "traffic"
    status := Status.active
    created_at := "2026-10-12T10:00:00Z" }

/-- Sample acknowledged alert used by concrete witnesses. -/
def sampleAcknowledged : Alert :=
  { sampleActive with
    id := "A2"
    status := Status.acknowledged
    acknowledged_at := some "2026-10-12T10:05:00Z" }

/-- Sample resolved alert used by concrete witnesses. -/
def sampleResolved : Alert :=
  { sampleActive with
    id := "A3"
    status := Status.resolved
    resolved_at := some "2026-10-12T10:09:00Z" }

/-- Sample second active alert used by concrete witnesses. -/
def sampleActiveB : Alert :=
  { sampleActive with id := "B1" }

/-- A store holding two active alerts, used by the bulk-acknowledge
counterexample. -/
def bulkStart : AlertsState :=
  addAlert sampleActiveB (addAlert sampleActive initialState)

/-- The store state after the first of the two dispatches of a bulk
acknowledge of both alerts of `bulkStart`. -/
def bulkMid : AlertsState :=
  updateAlert
    { id := "A1"
      status := some Status.acknowledged
      acknowledged_at := some "t"
      acknowledged_by := some "op" }
    bulkStart

/-- Sample operation sequence obeying the side conditions of the amended
active-view invariant. -/
def sampleOps : List Op :=
  [Op.addAlert sampleActive,
   Op.updateAlert (alertAcknowledgedEvent "A1" "t1" "operator"),
   Op.fetchFulfilled [sampleResolved],
   Op.acknowledgeFulfilled "A3" "t2"]

theorem patchFirst_length (i : String) (f : Alert → Alert) (l : List Alert) :
    (patchFirst i f l).length = l.length := by
  induction l with
  | nil => rfl
  | cons a rest ih =>
    simp only [patchFirst]
    split <;> simp [ih]

theorem patchFirst_of_not_mem (i : String) (f : Alert → Alert) (l : List Alert)
    (h : i ∉ l.map Alert.id) : patchFirst i f l = l := by
  induction l with
  | nil => rfl
  | cons a rest ih =>
    simp only [List.map_cons, List.mem_cons] at h
    push_neg at h
    have hne : ¬ a.id = i := fun hh => h.1 hh.symm
    simp only [patchFirst, if_neg hne]
    rw [ih h.2]

theorem patchFirst_map_id (i : String) (f : Alert → Alert) (l : List Alert)
    (hf : ∀ a : Alert, a.id = i → (f a).id = a.id) :
    (patchFirst i f l).map Alert.id = l.map Alert.id := by
  induction l with
  | nil => rfl
  | cons a rest ih =>
    simp only [patchFirst]
    split
    · next h => simp [hf a h]
    · simp [ih]

theorem patchFirst_get?_ne (i : String) (f : Alert → Alert) (l : List Alert)
    (k : Nat) (a : Alert) (hk : l.get? k = some a) (ha : a.id ≠ i) :
    (patchFirst i f l).get? k = some a := by
  induction l generalizing k with
  | nil => simp at hk
  | cons b rest ih =>
    cases k with
    | zero =>
      simp only [List.get?_cons_zero, Option.some.injEq] at hk
      subst hk
      simp only [patchFirst, if_neg ha, List.get?_cons_zero]
    | succ n =>
      simp only [List.get?_cons_succ] at hk
      simp only [patchFirst]
      split
      · simpa using hk
      · simpa using ih n hk

theorem patchActive_of_not_mem (p : UpdatePayload) (l : List Alert)
    (h : p.id ∉ l.map Alert.id) : patchActive p l = l := by
  induction l with
  | nil => rfl
  | cons a rest ih =>
    simp only [List.map_cons, List.mem_cons] at h
    push_neg at h
    have hne : ¬ a.id = p.id := fun hh => h.1 hh.symm
    simp only [patchActive, if_neg hne]
    rw [ih h.2]

theorem filter_id_ne_of_not_mem (i : String) (l : List Alert)
    (h : i ∉ l.map Alert.id) :
    l.filter (idNe i) = l := by
  rw [List.filter_eq_self]
  intro a ha
  simp only [idNe, decide_eq_true_eq]
  intro hai
  exact h (List.mem_map.mpr ⟨a, ha, hai⟩)

theorem mem_map_of_mem_filter_map {i : String} {q : Alert → Bool}
    {l : List Alert} (h : i ∈ (l.filter q).map Alert.id) :
    i ∈ l.map Alert.id := by
  rcases List.mem_map.mp h with ⟨a, ha, rfl⟩
  exact List.mem_map.mpr ⟨a, (List.mem_filter.mp ha).1, rfl⟩

theorem mergePatch_status (a : Alert) (p : UpdatePayload) (v : Status)
    (hv : p.status = some v) : (mergePatch a p).status = v := by
  simp [mergePatch, hv]

theorem patchActive_filter (p : UpdatePayload) (v : Status)
    (hv : p.status = some v) (hva : v ≠ Status.active) (l : List Alert)
    (hnd : (l.map Alert.id).Nodup) :
    patchActive p (l.filter isActive) =
      (patchFirst p.id (fun a => mergePatch a p) l).filter isActive := by
  have hps : ¬ p.status = some Status.active := by
    rw [hv]
    simpa using hva
  induction l with
  | nil => rfl
  | cons a rest ih =>
    simp only [List.map_cons, List.nodup_cons] at hnd
    obtain ⟨hafresh, hndr⟩ := hnd
    by_cases hid : a.id = p.id
    · simp only [patchFirst, if_pos hid]
      have hms : (mergePatch a p).status = v := mergePatch_status a p v hv
      have hmsF : ¬ isActive (mergePatch a p) = true := by
        simp [isActive, hms, hva]
      by_cases hact : a.status = Status.active
      · have hactT : isActive a = true := by simp [isActive, hact]
        rw [List.filter_cons_of_pos hactT, List.filter_cons_of_neg hmsF]
        simp only [patchActive, if_pos hid, if_neg hps]
      · have hactF : ¬ isActive a = true := by simp [isActive, hact]
        rw [List.filter_cons_of_neg hactF, List.filter_cons_of_neg hmsF]
        apply patchActive_of_not_mem
        intro hmem
        exact hafresh (hid ▸ mem_map_of_mem_filter_map hmem)
    · simp only [patchFirst, if_neg hid]
      by_cases hact : a.status = Status.active
      · have hactT : isActive a = true := by simp [isActive, hact]
        rw [List.filter_cons_of_pos hactT, List.filter_cons_of_pos hactT]
        simp only [patchActive, if_neg hid]
        rw [ih hndr]
      · have hactF : ¬ isActive a = true := by simp [isActive, hact]
        rw [List.filter_cons_of_neg hactF, List.filter_cons_of_neg hactF]
        exact ih hndr

theorem filter_ne_patchFirst_filter (i : String) (f : Alert → Alert)
    (hfst : ∀ a : Alert, (f a).status ≠ Status.active)
    (l : List Alert) (hnd : (l.map Alert.id).Nodup) :
    (l.filter isActive).filter (idNe i) =
      (patchFirst i f l).filter isActive := by
  induction l with
  | nil => rfl
  | cons a rest ih =>
    simp only [List.map_cons, List.nodup_cons] at hnd
    obtain ⟨hafresh, hndr⟩ := hnd
    by_cases hid : a.id = i
    · simp only [patchFirst, if_pos hid]
      have hfaF : ¬ isActive (f a) = true := by simp [isActive, hfst a]
      rw [List.filter_cons_of_neg hfaF]
      have hrest :
          (rest.filter isActive).filter (idNe i) = rest.filter isActive := by
        apply filter_id_ne_of_not_mem
        intro hmem
        exact hafresh (hid ▸ mem_map_of_mem_filter_map hmem)
      by_cases hact : a.status = Status.active
      · have hactT : isActive a = true := by simp [isActive, hact]
        have hidF : ¬ idNe i a = true := by simp [idNe, hid]
        rw [List.filter_cons_of_pos hactT, List.filter_cons_of_neg hidF]
        exact hrest
      · have hactF : ¬ isActive a = true := by simp [isActive, hact]
        rw [List.filter_cons_of_neg hactF]
        exact hrest
    · simp only [patchFirst, if_neg hid]
      by_cases hact : a.status = Status.active
      · have hactT : isActive a = true := by simp [isActive, hact]
        have hidT : idNe i a = true := by simp [idNe, hid]
        rw [List.filter_cons_of_pos hactT, List.filter_cons_of_pos hactT,
          List.filter_cons_of_pos hidT]
        rw [ih hndr]
      · have hactF : ¬ isActive a = true := by simp [isActive, hact]
        rw [List.filter_cons_of_neg hactF, List.filter_cons_of_neg hactF]
        exact ih hndr

theorem good_addAlert (a : Alert) (s : AlertsState) (hg : Good s)
    (hfresh : a.id ∉ s.alerts.map Alert.id) : Good (addAlert a s) := by
  obtain ⟨hinv, hnd⟩ := hg
  constructor
  · simp only [activeInv, addAlert] at hinv ⊢
    by_cases hact : a.status = Status.active
    · have hactT : isActive a = true := by simp [isActive, hact]
      rw [if_pos hact, List.filter_cons_of_pos hactT, hinv]
    · have hactF : ¬ isActive a = true := by simp [isActive, hact]
      rw [if_neg hact, List.filter_cons_of_neg hactF, hinv]
  · simp only [idsNodup, addAlert, List.map_cons, List.nodup_cons] at hnd ⊢
    exact ⟨hfresh, hnd⟩

theorem good_updateAlert (p : UpdatePayload) (s : AlertsState) (hg : Good s)
    (hok : p.status = some Status.acknowledged ∨
      p.status = some Status.resolved) :
    Good (updateAlert p s) := by
  obtain ⟨hinv, hnd⟩ := hg
  obtain ⟨v, hv, hva⟩ : ∃ v, p.status = some v ∧ v ≠ Status.active := by
    rcases hok with h | h
    · exact ⟨Status.acknowledged, h, by decide⟩
    · exact ⟨Status.resolved, h, by decide⟩
  constructor
  · simp only [activeInv, updateAlert] at hinv ⊢
    rw [hinv]
    exact patchActive_filter p v hv hva s.alerts hnd
  · simp only [idsNodup, updateAlert] at hnd ⊢
    rw [patchFirst_map_id]
    · exact hnd
    · intro a ha
      simp [mergePatch, ha]

theorem good_acknowledgeFulfilled (i t : String) (s : AlertsState)
    (hg : Good s) : Good (acknowledgeFulfilled i t s) := by
  obtain ⟨hinv, hnd⟩ := hg
  constructor
  · simp only [activeInv, acknowledgeFulfilled] at hinv ⊢
    rw [hinv]
    exact filter_ne_patchFirst_filter i _ (fun a => by simp) s.alerts hnd
  · simp only [idsNodup, acknowledgeFulfilled] at hnd ⊢
    rw [patchFirst_map_id]
    · exact hnd
    · intro a _
      rfl

theorem good_resolveFulfilled (i t : String) (s : AlertsState)
    (hg : Good s) : Good (resolveFulfilled i t s) := by
  obtain ⟨hinv, hnd⟩ := hg
  constructor
  · simp only [activeInv, resolveFulfilled] at hinv ⊢
    rw [hinv]
    exact filter_ne_patchFirst_filter i _ (fun a => by simp) s.alerts hnd
  · simp only [idsNodup, resolveFulfilled] at hnd ⊢
    rw [patchFirst_map_id]
    · exact hnd
    · intro a _
      rfl

theorem good_fetchFulfilled (payload : List Alert) (s : AlertsState)
    (hnd : (payload.map Alert.id).Nodup) : Good (fetchFulfilled payload s) := by
  constructor
  · rfl
  · exact hnd

theorem good_applyOp (o : Op) (s : AlertsState) (hg : Good s)
    (hok : opOK o s = true) : Good (applyOp o s) := by
  cases o with
  | addAlert a =>
    exact good_addAlert a s hg (by simpa [opOK] using hok)
  | updateAlert p =>
    apply good_updateAlert p s hg
    simpa [opOK, Bool.or_eq_true, decide_eq_true_eq] using hok
  | fetchFulfilled payload =>
    exact good_fetchFulfilled payload s (by simpa [opOK] using hok)
  | acknowledgeFulfilled i t =>
    exact good_acknowledgeFulfilled i t s hg
  | resolveFulfilled i t =>
    exact good_resolveFulfilled i t s hg

theorem good_run (ops : List Op) (s : AlertsState) (hg : Good s)
    (hok : opsOK ops s = true) : Good (run ops s) := by
  induction ops generalizing s with
  | nil => exact hg
  | cons o rest ih =>
    simp only [opsOK, Bool.and_eq_true] at hok
    exact ih (applyOp o s) (good_applyOp o s hg hok.1) hok.2

theorem good_initialState : Good initialState := by
  constructor
  · rfl
  · simp [idsNodup, initialState]

/-- Claim C1 fails as stated: an `updateAlert` whose payload sets the status
back to `'active'` (which the reducer does not special-case) updates the
record in `state.alerts` but never re-inserts it into `state.activeAlerts`,
so the cached active view drifts from the set of stored active alerts. -/
theorem c1_counterexample :
    ¬ activeInv
        (run
          [Op.addAlert sampleAcknowledged,
           Op.updateAlert { id := "A2", status := some Status.active }]
          initialState) := by
  decide

/-- Claim C1 (amended): for every sequence of store operations in which each
`updateAlert` payload carries status `'acknowledged'` or `'resolved'` (as
every socket-handler dispatch does), each `addAlert` id is not already
stored, and each fetched snapshot has pairwise-distinct ids, the cached
active view `state.activeAlerts` always equals the stored alerts of
`state.alerts` whose status is `'active'`. -/
theorem c1_active_view_invariant (ops : List Op)
    (hok : opsOK ops initialState = true) :
    activeInv (run ops initialState) :=
  (good_run ops initialState good_initialState hok).1

/-- Concrete run of `sampleOps` through the amended active-view invariant. -/
theorem c1_witness :
    opsOK sampleOps initialState = true ∧
      activeInv (run sampleOps initialState) :=
  ⟨by decide, c1_active_view_invariant sampleOps (by decide)⟩

/-- Claim C2 fails as stated: the `updateAlert` reducer has no
resolved-wins guard, so an `alert_acknowledged` event for an alert whose
current status is `'resolved'` overwrites the status with `'acknowledged'`
instead of being ignored. -/
theorem c2_counterexample :
    ((updateAlert (alertAcknowledgedEvent "A3" "t9" "op")
          (fetchFulfilled [sampleResolved] initialState)).alerts.map
        Alert.status) = [Status.acknowledged] ∧
      ¬ ((updateAlert (alertAcknowledgedEvent "A3" "t9" "op")
            (fetchFulfilled [sampleResolved] initialState)).alerts.map
          Alert.status = [Status.resolved]) := by
  decide

/-- Claim C2 (amended): resolved is not absorbing — applying an
`alert_acknowledged` event for a resolved alert's id unconditionally patches
the record: its status becomes `'acknowledged'` and `acknowledged_at` is
stamped, while `resolved_at` keeps its value (only the status is
downgraded). -/
theorem c2_acknowledge_overwrites_resolved (a : Alert) (rest : List Alert)
    (s : AlertsState) (t u : String) (hs : s.alerts = a :: rest)
    (hres : a.status = Status.resolved) :
    ∃ a' : Alert,
      (updateAlert (alertAcknowledgedEvent a.id t u) s).alerts = a' :: rest ∧
        a'.status = Status.acknowledged ∧
        a'.resolved_at = a.resolved_at ∧
        a'.acknowledged_at = some t := by
  refine ⟨mergePatch a (alertAcknowledgedEvent a.id t u), ?_, ?_, ?_, ?_⟩
  · simp [updateAlert, hs, patchFirst, alertAcknowledgedEvent]
  · simp [mergePatch, alertAcknowledgedEvent]
  · simp [mergePatch, alertAcknowledgedEvent, overrideField]
  · simp [mergePatch, alertAcknowledgedEvent, overrideField]

/-- Concrete downgrade of the resolved `sampleResolved` record. -/
theorem c2_witness :
    ∃ a' : Alert,
      (updateAlert (alertAcknowledgedEvent sampleResolved.id "t9" "op")
            (fetchFulfilled [sampleResolved] initialState)).alerts =
          a' :: [] ∧
        a'.status = Status.acknowledged ∧
        a'.resolved_at = sampleResolved.resolved_at ∧
        a'.acknowledged_at = some "t9" :=
  c2_acknowledge_overwrites_resolved sampleResolved []
    (fetchFulfilled [sampleResolved] initialState) "t9" "op" (by decide)
    (by decide)

/-- Claim C3 fails as stated: `addAlert` prepends unconditionally, so
replaying the same `new_alert` event changes the store again — the second
copy is a duplicate insert, not a replace. -/
theorem c3_counterexample :
    addAlert sampleActive (addAlert sampleActive initialState) ≠
      addAlert sampleActive initialState := by
  decide

/-- Claim C3 (amended): handling `new_alert` is not idempotent — `addAlert`
always prepends the record, so a second delivery of the same record (same
id included) grows `state.alerts` by one more copy instead of replacing. -/
theorem c3_addAlert_duplicates (a : Alert) (s : AlertsState) :
    (addAlert a (addAlert a s)).alerts = a :: a :: s.alerts ∧
      (addAlert a s).alerts.countP (fun b => decide (b = a)) =
        s.alerts.countP (fun b => decide (b = a)) + 1 := by
  constructor
  · rfl
  · simp [addAlert, List.countP_cons]

/-- Claim C4 fails as stated: no optimistic patch is applied while the
`acknowledgeAlert` REST call is in flight — the store still shows the
alert as `'active'` during the pending phase. -/
theorem c4_counterexample :
    ((acknowledgePending (addAlert sampleActive initialState)).alerts.map
        Alert.status) = [Status.active] ∧
      ¬ ((acknowledgePending (addAlert sampleActive initialState)).alerts.map
          Alert.status = [Status.acknowledged]) := by
  decide

/-- Claim C4 (amended): the acknowledge dispatch is not optimistic — the
slice registers neither a `pending` nor a `rejected` case for
`acknowledgeAlert`, so the store is unchanged while the REST call is in
flight and a REST failure trivially leaves every alert at its exact
pre-call status and timestamps (the only mutation happens on
`fulfilled`). -/
theorem c4_no_optimistic_update (s : AlertsState) :
    acknowledgePending s = s ∧
      acknowledgeRejected (acknowledgePending s) = s :=
  ⟨rfl, rfl⟩

/-- Claim C5 fails as stated (atomicity half): the bulk handler dispatches
one `updateAlert` per id, so after the first of two dispatches the store is
at an observable point whose active view reflects exactly one of the two
transitions — neither all nor none. -/
theorem c5_counterexample :
    (bulkStates ["A1", "B1"] "t" "op" bulkStart).get? 0 = some bulkMid ∧
      bulkMid.activeAlerts ≠ bulkStart.activeAlerts ∧
      bulkMid.activeAlerts ≠
        (alertsBulkAcknowledged ["A1", "B1"] "t" "op" bulkStart).activeAlerts := by
  decide

/-- Claim C5 (amended): handling `alerts_bulk_acknowledged` for ids
`a1..aN` equals applying the N individual `alert_acknowledged` patches in
order, but it is not atomic — each of the N dispatches completes as its own
store transaction, so partial subsets of the transitions are observable
between dispatches. -/
theorem c5_bulk_equals_individual (alert_ids : List String)
    (now acknowledged_by : String) (s : AlertsState) :
    alertsBulkAcknowledged alert_ids now acknowledged_by s =
      alert_ids.foldl
        (fun st aid =>
          updateAlert (alertAcknowledgedEvent aid now acknowledged_by) st)
        s :=
  rfl

/-- Claim C6 fails as stated: the `acknowledgeAlert` thunk issues the REST
call unconditionally — there is no local presence check — so calling it with
the absent id `X9` still issues `PUT /alerts/X9/acknowledge`. -/
theorem c6_counterexample :
    acknowledgeThunkRequests "X9" initialState =
        [acknowledgeAlertRequest "X9"] ∧
      acknowledgeThunkRequests "X9" initialState ≠ [] ∧
      "X9" ∉ initialState.alerts.map Alert.id := by
  decide

/-- Claim C6 (amended): for an id absent from the store the REST call is
still issued (no local rejection), but no store state is mutated — the
`fulfilled` reducer finds no record to patch and filters nothing out of the
active view, leaving the state exactly as it was. -/
theorem c6_absent_id_no_mutation (alertId now : String) (s : AlertsState)
    (hinv : activeInv s) (habs : alertId ∉ s.alerts.map Alert.id) :
    acknowledgeFulfilled alertId now s = s ∧
      acknowledgeThunkRequests alertId s = [acknowledgeAlertRequest alertId] := by
  constructor
  · have hactive : s.activeAlerts.filter (idNe alertId) = s.activeAlerts := by
      rw [hinv]
      apply filter_id_ne_of_not_mem
      intro hmem
      exact habs (mem_map_of_mem_filter_map hmem)
    show ({ s with
      alerts := patchFirst alertId
        (fun a => { a with status := Status.acknowledged, acknowledged_at := some now })
        s.alerts
      activeAlerts := s.activeAlerts.filter (idNe alertId) } : AlertsState) = s
    rw [patchFirst_of_not_mem alertId _ s.alerts habs, hactive]
  · rfl

/-- Concrete acknowledge of the absent id `X9` against the initial store. -/
theorem c6_witness :
    acknowledgeFulfilled "X9" "t0" initialState = initialState ∧
      acknowledgeThunkRequests "X9" initialState =
        [acknowledgeAlertRequest "X9"] :=
  c6_absent_id_no_mutation "X9" "t0" initialState rfl (by decide)

/-- Claim C7 fails as stated: `fetchAlerts.fulfilled` replaces `state.alerts`
wholesale with the snapshot payload, so a refetch whose response omits a
stored alert (for instance after a filter change) deletes that alert from
the store mid-session. -/
theorem c7_counterexample :
    "A1" ∈ (addAlert sampleActive initialState).alerts.map Alert.id ∧
      "A1" ∉
        (fetchFulfilled [] (addAlert sampleActive initialState)).alerts.map
          Alert.id := by
  decide

/-- Claim C7 (amended): no store operation other than a snapshot refetch
deletes an alert — `addAlert`, `updateAlert` and the acknowledge/resolve
fulfilled reducers preserve every stored id — but `fetchAlerts.fulfilled`
replaces the stored list with the snapshot payload and so can drop ids. -/
theorem c7_no_deletion_except_fetch (o : Op) (s : AlertsState) (x : String)
    (hnf : ∀ payload : List Alert, o ≠ Op.fetchFulfilled payload)
    (hx : x ∈ s.alerts.map Alert.id) :
    x ∈ (applyOp o s).alerts.map Alert.id := by
  cases o with
  | addAlert a =>
    simp only [applyOp, addAlert, List.map_cons, List.mem_cons]
    exact Or.inr hx
  | updateAlert p =>
    simp only [applyOp, updateAlert]
    rw [patchFirst_map_id]
    · exact hx
    · intro a ha
      simp [mergePatch, ha]
  | fetchFulfilled payload => exact absurd rfl (hnf payload)
  | acknowledgeFulfilled i t =>
    simp only [applyOp, acknowledgeFulfilled]
    rw [patchFirst_map_id]
    · exact hx
    · intro a _
      rfl
  | resolveFulfilled i t =>
    simp only [applyOp, resolveFulfilled]
    rw [patchFirst_map_id]
    · exact hx
    · intro a _
      rfl

/-- Concrete non-fetch operation preserving the stored id `A1`. -/
theorem c7_witness :
    "A1" ∈
      (applyOp (Op.acknowledgeFulfilled "A1" "t1")
          (addAlert sampleActive initialState)).alerts.map Alert.id :=
  c7_no_deletion_except_fetch (Op.acknowledgeFulfilled "A1" "t1")
    (addAlert sampleActive initialState) "A1"
    (fun payload h => Op.noConfusion h) (by decide)

/-- Claim C8: in every run of socket events, each `connect` event (first
connection or reconnection) triggers the `subscribe_alerts` emission with
the subscription filter (the hook's severity levels and modules). -/
theorem c8_reconnect_resubscribes (events : List SocketEvent) (k : Nat)
    (hk : events.get? k = some SocketEvent.connect) :
    ∃ msgs,
      (events.map connectionEmissions).get? k = some msgs ∧
        OutMessage.subscribeAlerts subscriptionSeverityLevels
            subscriptionModules ∈ msgs := by
  refine ⟨connectionEmissions SocketEvent.connect, ?_, by
    simp [connectionEmissions]⟩
  rw [List.get?_map, hk]
  rfl

/-- Concrete disconnect/reconnect cycle re-emitting `subscribe_alerts`. -/
theorem c8_witness :
    ∃ msgs,
      ([SocketEvent.disconnect, SocketEvent.connect].map
            connectionEmissions).get? 1 = some msgs ∧
        OutMessage.subscribeAlerts subscriptionSeverityLevels
            subscriptionModules ∈ msgs :=
  c8_reconnect_resubscribes [SocketEvent.disconnect, SocketEvent.connect] 1
    (by decide)

/-- Claim C9: `updateAlert` is framed — it preserves the length of
`state.alerts` (no insert, no delete, also when the id is absent) and
leaves every record whose id differs from the payload id unchanged. -/
theorem c9_updateAlert_frame (p : UpdatePayload) (s : AlertsState) :
    (updateAlert p s).alerts.length = s.alerts.length ∧
      ∀ (k : Nat) (a : Alert), s.alerts.get? k = some a → a.id ≠ p.id →
        (updateAlert p s).alerts.get? k = some a := by
  constructor
  · simp [updateAlert, patchFirst_length]
  · intro k a hk ha
    simp only [updateAlert]
    exact patchFirst_get?_ne p.id _ s.alerts k a hk ha

/-- Concrete frame check: acknowledging `A2` leaves the record `A1` at
position 0 untouched. -/
theorem c9_witness :
    (updateAlert (alertAcknowledgedEvent "A2" "t1" "op")
          (fetchFulfilled [sampleActive, sampleAcknowledged]
            initialState)).alerts.get? 0 = some sampleActive :=
  (c9_updateAlert_frame (alertAcknowledgedEvent "A2" "t1" "op")
        (fetchFulfilled [sampleActive, sampleAcknowledged] initialState)).2 0
    sampleActive (by decide) (by decide)

/-- Claim C10: `addAlert` prepends — the new record lands at index 0 of
`state.alerts`, and at index 0 of `state.activeAlerts` exactly when its
status is `'active'` (stated for stores whose active view satisfies the
cached-projection invariant). -/
theorem c10_addAlert_prepends (a : Alert) (s : AlertsState)
    (hinv : activeInv s) :
    (addAlert a s).alerts.head? = some a ∧
      ((addAlert a s).activeAlerts.head? = some a ↔
        a.status = Status.active) := by
  refine ⟨rfl, ?_, ?_⟩
  · intro hhead
    by_contra hact
    have hunch : (addAlert a s).activeAlerts = s.activeAlerts := by
      simp [addAlert, if_neg hact]
    rw [hunch] at hhead
    have hmem : a ∈ s.activeAlerts := by
      cases hsa : s.activeAlerts with
      | nil => rw [hsa] at hhead; exact Option.noConfusion hhead
      | cons b t =>
        rw [hsa] at hhead
        simp only [List.head?_cons, Option.some.injEq] at hhead
        rw [← hhead]
        exact List.mem_cons_self b t
    rw [hinv] at hmem
    have := (List.mem_filter.mp hmem).2
    simp only [isActive, decide_eq_true_eq] at this
    exact hact this
  · intro hact
    simp [addAlert, if_pos hact]

/-- Concrete prepend of `sampleActive` onto the initial store. -/
theorem c10_witness :
    (addAlert sampleActive initialState).alerts.head? = some sampleActive ∧
      ((addAlert sampleActive initialState).activeAlerts.head? =
          some sampleActive ↔
        sampleActive.status = Status.active) :=
  c10_addAlert_prepends sampleActive initialState rfl

end SmartCity
